import Mathlib

/-!
Verification development for the cellular TLS security-context manager
(the `uCellSecTls` API exercised by `src/cell/test/u_cell_sec_tls_test.c`).

The manager implementation itself is not part of the visible sources
(only its test is), so the data model and every operation below are
modelled from the specification of the Security Context Manager:
its data model (section 3), the field accessors (section 4.3), the
Last-Error state (section 4.4) and the error taxonomy (section 7).
Bounded strings are modelled as lists of characters (one character per
byte, all observed values are ASCII), byte buffers as lists of bytes,
and the module-instance-wide state (the security context, the sticky
Last-Error slot and a counter of transport exchanges) is threaded
explicitly through every operation.
-/

/-- Modelled from the spec: the fixed maximum length, in bytes, of every
bounded string field, a configuration constant consistent across fields
(observed value 11, the length of the test names). -/
def maxNameLengthBytes : Nat := 11

/-- Modelled from the spec: the negative error code for the
invalid-argument class of the error taxonomy (malformed input detected
locally; never reaches the transport). -/
def U_ERROR_COMMON_INVALID_PARAMETER : Int := -5

/-- Modelled from the spec: the negative error code for the
unsupported-feature class of the error taxonomy (capability-gated
field or operation attempted against a module variant lacking the
capability; never reaches the transport). -/
def U_ERROR_COMMON_NOT_SUPPORTED : Int := -4

/-- Modelled from the spec: the certificate-check levels
(U_CELL_SEC_TLS_CERTIFICATE_CHECK_NONE, ..._ROOT_CA, ..._ROOT_CA_URL,
..._ROOT_CA_URL_DATE). -/
inductive CertCheck where
  | checkNone
  | checkRootCa
  | checkRootCaUrl
  | checkRootCaUrlDate
deriving DecidableEq

/-- Modelled from the spec: the numeric code of a certificate-check
level, as returned by the check-level getter. -/
def CertCheck.toCode : CertCheck → Int
  | CertCheck.checkNone => 0
  | CertCheck.checkRootCa => 1
  | CertCheck.checkRootCaUrl => 2
  | CertCheck.checkRootCaUrlDate => 3

/-- Modelled from the spec: whether a certificate-check level carries an
associated bounded string parameter (the levels beyond ROOT_CA do). -/
def CertCheck.carriesParam : CertCheck → Bool
  | CertCheck.checkRootCaUrl => true
  | CertCheck.checkRootCaUrlDate => true
  | _ => false

/-- Modelled from the spec: the Capability Table entry for one module
variant — which optional features it supports (IANA cipher numbering,
SNI, root-of-trust PSK generation) and whether it is the SARA-R5-like
variant whose documented defaults differ (TLS version 1.2 and
certificate-check level ROOT_CA instead of unspecified/NONE). -/
structure CellModule where
  hasIanaNumbering : Bool
  hasSni : Bool
  hasRootOfTrust : Bool
  isSaraR5 : Bool
deriving DecidableEq

/-- Modelled from the spec: the per-connection security context record —
bounded string credential names, PSK-configured flag, the
insertion-ordered duplicate-free cipher-suite list with its single
iteration cursor, the TLS version, the certificate-check level with its
parameter, and the server name indication. -/
structure uCellSecTlsContext where
  rootCaCertificateName : List Char
  clientCertificateName : List Char
  clientPrivateKeyName : List Char
  clientPrivateKeyPassword : Option (List Char)
  pskConfigured : Bool
  cipherSuites : List Nat
  cipherCursor : Nat
  tlsVersion : Nat
  certificateCheck : CertCheck
  certificateCheckParam : List Char
  sni : List Char
deriving DecidableEq

/-- Modelled from the spec: the module-instance-wide state threaded
through every operation — the live context, the sticky Last-Error slot
(zero meaning no error) and a count of command-transport exchanges
performed (used to express that validation failures never reach the
transport). -/
structure SecTlsState where
  ctx : uCellSecTlsContext
  lastError : Int
  transportCount : Nat
deriving DecidableEq

/-- Modelled from the spec: the module-dependent default TLS version of
a fresh context (unspecified/0, except 12 for the SARA-R5-like
variant). -/
def defaultTlsVersion (m : CellModule) : Nat :=
  if m.isSaraR5 then 12 else 0

/-- Modelled from the spec: the module-dependent default
certificate-check level of a fresh context (NONE, except ROOT_CA for
the SARA-R5-like variant). -/
def defaultCertificateCheck (m : CellModule) : CertCheck :=
  if m.isSaraR5 then CertCheck.checkRootCa else CertCheck.checkNone

/-- Modelled from the spec: the default configuration a freshly added
context carries — empty names, no PSK, empty cipher list, the module
variant default version and certificate-check level. -/
def defaultContext (m : CellModule) : uCellSecTlsContext :=
  { rootCaCertificateName := []
    clientCertificateName := []
    clientPrivateKeyName := []
    clientPrivateKeyPassword := none
    pskConfigured := false
    cipherSuites := []
    cipherCursor := 0
    tlsVersion := defaultTlsVersion m
    certificateCheck := defaultCertificateCheck m
    certificateCheckParam := []
    sni := [] }

/-- Modelled from the spec: a context whose owned buffers have been
released (what remains once a removed context is freed). -/
def clearedContext : uCellSecTlsContext :=
  { rootCaCertificateName := []
    clientCertificateName := []
    clientPrivateKeyName := []
    clientPrivateKeyPassword := none
    pskConfigured := false
    cipherSuites := []
    cipherCursor := 0
    tlsVersion := 0
    certificateCheck := CertCheck.checkNone
    certificateCheckParam := []
    sni := [] }

/-- Modelled from the spec: the manager state immediately after a fresh
context has been added on a clean manager instance (Last-Error has its
init value zero). -/
def freshState (m : CellModule) : SecTlsState :=
  { ctx := defaultContext m, lastError := 0, transportCount := 0 }

/-- Modelled from the spec: latch a (negative) error code into the
sticky Last-Error slot. -/
def latchError (e : Int) (s : SecTlsState) : SecTlsState :=
  { s with lastError := e }

/-- Modelled from the spec: record one successful command-transport
exchange. -/
def touchTransport (s : SecTlsState) : SecTlsState :=
  { s with transportCount := s.transportCount + 1 }

/-- Modelled from the spec: a failing operation both returns its
negative error code and latches it into Last-Error before returning. -/
def opFail (e : Int) (s : SecTlsState) : Int × SecTlsState :=
  (e, latchError e s)

/-- Modelled from the spec: the shared read half of every bounded
string getter — copy the stored value, truncated to what fits in a
buffer of the given size together with a terminator, and report the
number of bytes copied, excluding the terminator; a buffer size of zero
(the null-buffer probe) copies nothing and reports zero. -/
def stringGet (stored : List Char) (bufferSize : Nat) : Int × List Char :=
  let copied := stored.take (bufferSize - 1)
  ((copied.length : Int), copied)

/-- Modelled from the spec: the Last-Error reset operation — in one
step it returns the latched value and clears the slot to zero. -/
def uCellSecTlsResetLastError (s : SecTlsState) : Int × SecTlsState :=
  (s.lastError, { s with lastError := 0 })

/-- Modelled from the spec: adding a security context — the context is
freshly allocated with the module variant defaults, never cached or
reused from a prior instance (resource exhaustion is not modelled). -/
def pUCellSecSecTlsAdd (m : CellModule) (s : SecTlsState) : SecTlsState :=
  { s with ctx := defaultContext m }

/-- Modelled from the spec: removing a security context — every owned
buffer (names, PSK bytes, cipher list) is released. -/
def uCellSecTlsRemove (s : SecTlsState) : SecTlsState :=
  { s with ctx := clearedContext }

/-- Modelled from the spec: set the root/CA certificate name —
validates the length against the bounded maximum, performs the
transport exchange and mirrors the value, fully replacing any prior
value; an over-long name is an invalid-argument failure that latches
Last-Error without touching the transport. -/
def uCellSecTlsRootCaCertificateNameSet (name : List Char) (s : SecTlsState) :
    Int × SecTlsState :=
  if name.length > maxNameLengthBytes then
    opFail U_ERROR_COMMON_INVALID_PARAMETER s
  else
    (0, touchTransport { s with ctx := { s.ctx with rootCaCertificateName := name } })

/-- Modelled from the spec: get the root/CA certificate name (see
stringGet for the buffer contract). -/
def uCellSecTlsRootCaCertificateNameGet (bufferSize : Nat) (s : SecTlsState) :
    (Int × List Char) × SecTlsState :=
  (stringGet s.ctx.rootCaCertificateName bufferSize, s)

/-- Modelled from the spec: set the client certificate name (same
contract as the root/CA certificate name setter). -/
def uCellSecTlsClientCertificateNameSet (name : List Char) (s : SecTlsState) :
    Int × SecTlsState :=
  if name.length > maxNameLengthBytes then
    opFail U_ERROR_COMMON_INVALID_PARAMETER s
  else
    (0, touchTransport { s with ctx := { s.ctx with clientCertificateName := name } })

/-- Modelled from the spec: get the client certificate name. -/
def uCellSecTlsClientCertificateNameGet (bufferSize : Nat) (s : SecTlsState) :
    (Int × List Char) × SecTlsState :=
  (stringGet s.ctx.clientCertificateName bufferSize, s)

/-- Modelled from the spec: set the client private key name together
with its optional password (same bounded string contract). -/
def uCellSecTlsClientPrivateKeyNameSet (name : List Char)
    (password : Option (List Char)) (s : SecTlsState) : Int × SecTlsState :=
  if name.length > maxNameLengthBytes then
    opFail U_ERROR_COMMON_INVALID_PARAMETER s
  else
    (0, touchTransport { s with ctx :=
      { s.ctx with clientPrivateKeyName := name, clientPrivateKeyPassword := password } })

/-- Modelled from the spec: get the client private key name. -/
def uCellSecTlsClientPrivateKeyNameGet (bufferSize : Nat) (s : SecTlsState) :
    (Int × List Char) × SecTlsState :=
  (stringGet s.ctx.clientPrivateKeyName bufferSize, s)

/-- Modelled from the spec: set the pre-shared key and its identity —
exactly one of two argument shapes is legal: (a) both byte buffers
non-empty, or (b) generateFromRootOfTrust true with both buffers empty
on a variant with the root-of-trust capability; any other combination
fails with an invalid-argument error, latching Last-Error, without
touching the transport or the context. -/
def uCellSecTlsClientPskSet (m : CellModule) (psk pskId : List Nat)
    (generateFromRootOfTrust : Bool) (s : SecTlsState) : Int × SecTlsState :=
  if (psk ≠ [] ∧ pskId ≠ []) ∨
     (generateFromRootOfTrust = true ∧ psk = [] ∧ pskId = [] ∧
      m.hasRootOfTrust = true) then
    (0, touchTransport { s with ctx := { s.ctx with pskConfigured := true } })
  else
    opFail U_ERROR_COMMON_INVALID_PARAMETER s

/-- Modelled from the spec: add a cipher suite — on a variant with IANA
numbering an absent identifier is appended (insertion order preserved)
and a duplicate is a no-op success; on a variant without IANA numbering
at most one cipher may be present, so an add onto a non-empty list is
an unsupported-feature failure. -/
def uCellSecTlsCipherSuiteAdd (m : CellModule) (id : Nat) (s : SecTlsState) :
    Int × SecTlsState :=
  if m.hasIanaNumbering then
    if id ∈ s.ctx.cipherSuites then
      (0, s)
    else
      (0, touchTransport { s with ctx :=
        { s.ctx with cipherSuites := s.ctx.cipherSuites ++ [id] } })
  else
    if s.ctx.cipherSuites = [] then
      (0, touchTransport { s with ctx := { s.ctx with cipherSuites := [id] } })
    else
      opFail U_ERROR_COMMON_NOT_SUPPORTED s

/-- Modelled from the spec: remove a cipher suite — removes the
identifier if present; removing an absent identifier is a no-op
success. -/
def uCellSecTlsCipherSuiteRemove (id : Nat) (s : SecTlsState) :
    Int × SecTlsState :=
  (0, touchTransport { s with ctx :=
    { s.ctx with cipherSuites := s.ctx.cipherSuites.erase id } })

/-- Modelled from the spec: start iterating the cipher list — resets
the single per-context cursor and returns the first identifier, or -1
as the sentinel for an empty list (an informational return, not a
failure, so Last-Error is not latched). -/
def uCellSecTlsCipherSuiteListFirst (s : SecTlsState) : Int × SecTlsState :=
  match s.ctx.cipherSuites with
  | [] => (-1, { s with ctx := { s.ctx with cipherCursor := 0 } })
  | id :: _ => ((id : Int), { s with ctx := { s.ctx with cipherCursor := 1 } })

/-- Modelled from the spec: advance the cipher list cursor and return
the next identifier, or -1 once the list is exhausted (an informational
return, not a failure). -/
def uCellSecTlsCipherSuiteListNext (s : SecTlsState) : Int × SecTlsState :=
  match s.ctx.cipherSuites[s.ctx.cipherCursor]? with
  | none => (-1, s)
  | some id => ((id : Int), { s with ctx :=
      { s.ctx with cipherCursor := s.ctx.cipherCursor + 1 } })

/-- Modelled from the spec: set the TLS version (encoded major*10 +
minor, 0 meaning the default) — no application-level validation; the
modem is authoritative, and the transport exchange is modelled as
succeeding. -/
def uCellSecTlsVersionSet (v : Nat) (s : SecTlsState) : Int × SecTlsState :=
  (0, touchTransport { s with ctx := { s.ctx with tlsVersion := v } })

/-- Modelled from the spec: get the TLS version. -/
def uCellSecTlsVersionGet (s : SecTlsState) : Int × SecTlsState :=
  ((s.ctx.tlsVersion : Int), s)

/-- Modelled from the spec: set the certificate-check level — NONE
requires a null optional parameter, ROOT_CA ignores it, and the
levels beyond ROOT_CA require a non-null bounded string parameter;
violations are invalid-argument failures that latch Last-Error without
touching the transport. -/
def uCellSecTlsCertificateCheckSet (level : CertCheck)
    (param : Option (List Char)) (s : SecTlsState) : Int × SecTlsState :=
  match level, param with
  | CertCheck.checkNone, none =>
      (0, touchTransport { s with ctx :=
        { s.ctx with certificateCheck := CertCheck.checkNone, certificateCheckParam := [] } })
  | CertCheck.checkNone, some _ =>
      opFail U_ERROR_COMMON_INVALID_PARAMETER s
  | CertCheck.checkRootCa, _ =>
      (0, touchTransport { s with ctx :=
        { s.ctx with certificateCheck := CertCheck.checkRootCa, certificateCheckParam := [] } })
  | CertCheck.checkRootCaUrl, some p =>
      if p.length > maxNameLengthBytes then
        opFail U_ERROR_COMMON_INVALID_PARAMETER s
      else
        (0, touchTransport { s with ctx :=
          { s.ctx with certificateCheck := CertCheck.checkRootCaUrl, certificateCheckParam := p } })
  | CertCheck.checkRootCaUrl, none =>
      opFail U_ERROR_COMMON_INVALID_PARAMETER s
  | CertCheck.checkRootCaUrlDate, some p =>
      if p.length > maxNameLengthBytes then
        opFail U_ERROR_COMMON_INVALID_PARAMETER s
      else
        (0, touchTransport { s with ctx :=
          { s.ctx with certificateCheck := CertCheck.checkRootCaUrlDate, certificateCheckParam := p } })
  | CertCheck.checkRootCaUrlDate, none =>
      opFail U_ERROR_COMMON_INVALID_PARAMETER s

/-- Modelled from the spec: get the certificate-check level — always
returns the numeric level code regardless of buffer size, and
additionally copies the associated parameter string (truncated to the
buffer) when the level carries one. -/
def uCellSecTlsCertificateCheckGet (bufferSize : Nat) (s : SecTlsState) :
    (Int × List Char) × SecTlsState :=
  let copied :=
    if s.ctx.certificateCheck.carriesParam then
      s.ctx.certificateCheckParam.take (bufferSize - 1)
    else []
  ((s.ctx.certificateCheck.toCode, copied), s)

/-- Modelled from the spec: set the server name indication — entirely
gated behind the SNI capability: without it the operation is an
unsupported-feature failure (latching Last-Error, no transport);
with it, the bounded string contract of the other name setters
applies. -/
def uCellSecTlsSniSet (m : CellModule) (name : List Char) (s : SecTlsState) :
    Int × SecTlsState :=
  if m.hasSni then
    if name.length > maxNameLengthBytes then
      opFail U_ERROR_COMMON_INVALID_PARAMETER s
    else
      (0, touchTransport { s with ctx := { s.ctx with sni := name } })
  else
    opFail U_ERROR_COMMON_NOT_SUPPORTED s

/-- Modelled from the spec: get the server name indication — an
unsupported-feature failure (never an empty value) on a variant
without the SNI capability, the bounded string getter contract
otherwise. -/
def uCellSecTlsSniGet (m : CellModule) (bufferSize : Nat) (s : SecTlsState) :
    (Int × List Char) × SecTlsState :=
  if m.hasSni then
    (stringGet s.ctx.sni bufferSize, s)
  else
    ((U_ERROR_COMMON_NOT_SUPPORTED, []), latchError U_ERROR_COMMON_NOT_SUPPORTED s)

/-- Modelled from the spec: the operations of the public accessor
surface of the Security Context Manager, reified so that properties
quantifying over every operation can be stated. -/
inductive SecTlsOp where
  | opRootCaSet (name : List Char)
  | opRootCaGet (bufferSize : Nat)
  | opClientCertSet (name : List Char)
  | opClientCertGet (bufferSize : Nat)
  | opClientKeySet (name : List Char) (password : Option (List Char))
  | opClientKeyGet (bufferSize : Nat)
  | opPskSet (psk pskId : List Nat) (generateFromRootOfTrust : Bool)
  | opCipherAdd (id : Nat)
  | opCipherRemove (id : Nat)
  | opListFirst
  | opListNext
  | opVersionSet (v : Nat)
  | opVersionGet
  | opCertCheckSet (level : CertCheck) (param : Option (List Char))
  | opCertCheckGet (bufferSize : Nat)
  | opSniSet (name : List Char)
  | opSniGet (bufferSize : Nat)
deriving DecidableEq

/-- Modelled from the spec: dispatch one reified operation against the
manager state, returning its integer result (getters report their
byte count or error) and the successor state. -/
def runOp (op : SecTlsOp) (m : CellModule) (s : SecTlsState) : Int × SecTlsState :=
  match op with
  | SecTlsOp.opRootCaSet name => uCellSecTlsRootCaCertificateNameSet name s
  | SecTlsOp.opRootCaGet b =>
      ((uCellSecTlsRootCaCertificateNameGet b s).1.1, (uCellSecTlsRootCaCertificateNameGet b s).2)
  | SecTlsOp.opClientCertSet name => uCellSecTlsClientCertificateNameSet name s
  | SecTlsOp.opClientCertGet b =>
      ((uCellSecTlsClientCertificateNameGet b s).1.1, (uCellSecTlsClientCertificateNameGet b s).2)
  | SecTlsOp.opClientKeySet name pw => uCellSecTlsClientPrivateKeyNameSet name pw s
  | SecTlsOp.opClientKeyGet b =>
      ((uCellSecTlsClientPrivateKeyNameGet b s).1.1, (uCellSecTlsClientPrivateKeyNameGet b s).2)
  | SecTlsOp.opPskSet psk pskId g => uCellSecTlsClientPskSet m psk pskId g s
  | SecTlsOp.opCipherAdd id => uCellSecTlsCipherSuiteAdd m id s
  | SecTlsOp.opCipherRemove id => uCellSecTlsCipherSuiteRemove id s
  | SecTlsOp.opListFirst => uCellSecTlsCipherSuiteListFirst s
  | SecTlsOp.opListNext => uCellSecTlsCipherSuiteListNext s
  | SecTlsOp.opVersionSet v => uCellSecTlsVersionSet v s
  | SecTlsOp.opVersionGet => uCellSecTlsVersionGet s
  | SecTlsOp.opCertCheckSet level param => uCellSecTlsCertificateCheckSet level param s
  | SecTlsOp.opCertCheckGet b =>
      ((uCellSecTlsCertificateCheckGet b s).1.1, (uCellSecTlsCertificateCheckGet b s).2)
  | SecTlsOp.opSniSet name => uCellSecTlsSniSet m name s
  | SecTlsOp.opSniGet b =>
      ((uCellSecTlsSniGet m b s).1.1, (uCellSecTlsSniGet m b s).2)

/-- Modelled from the spec: fold a list of cipher identifiers through
the cipher-suite add operation. -/
def cipherAddAll (m : CellModule) (ids : List Nat) (s : SecTlsState) : SecTlsState :=
  ids.foldl (fun st id => (uCellSecTlsCipherSuiteAdd m id st).2) s

/-- Modelled from the spec: keep calling the list-next operation,
collecting returned identifiers until the -1 sentinel (fuel-bounded). -/
def collectNext (s : SecTlsState) : Nat → List Int
  | 0 => []
  | fuel + 1 =>
      let r := uCellSecTlsCipherSuiteListNext s
      if r.1 < 0 then [] else r.1 :: collectNext r.2 fuel

/-- Modelled from the spec: the full iteration protocol of the test —
one list-first call followed by list-next calls until the -1
sentinel, collecting every returned cipher identifier. -/
def cipherListCollect (s : SecTlsState) : List Int :=
  let r := uCellSecTlsCipherSuiteListFirst s
  if r.1 < 0 then [] else r.1 :: collectNext r.2 s.ctx.cipherSuites.length

/-- A module variant with every optional capability. -/
def mAllFeatures : CellModule :=
  { hasIanaNumbering := true, hasSni := true, hasRootOfTrust := true, isSaraR5 := false }

/-- A module variant with no optional capability. -/
def mNoFeatures : CellModule :=
  { hasIanaNumbering := false, hasSni := false, hasRootOfTrust := false, isSaraR5 := false }

/-- The SARA-R5-like module variant with the differing defaults. -/
def mSaraR5 : CellModule :=
  { hasIanaNumbering := true, hasSni := false, hasRootOfTrust := true, isSaraR5 := true }

/-- When the buffer is strictly larger than the stored value, the
bounded string getter copies the whole value and reports its exact
length. -/
theorem stringGet_full (stored : List Char) (bufferSize : Nat)
    (h : stored.length < bufferSize) :
    stringGet stored bufferSize = ((stored.length : Int), stored) := by
  unfold stringGet
  rw [List.take_of_length_le (by omega)]

/-- Claim C3: on a module variant without the SNI capability both the
SNI setter and the SNI getter return a negative error; neither succeeds
nor reports an empty string as if the feature were supported. -/
theorem claim_C3 (m : CellModule) (name : List Char) (bufferSize : Nat)
    (s : SecTlsState) (h : m.hasSni = false) :
    (uCellSecTlsSniSet m name s).1 < 0 ∧
    (uCellSecTlsSniGet m bufferSize s).1.1 < 0 := by
  constructor
  · rw [uCellSecTlsSniSet, h]
    simp [opFail, latchError, U_ERROR_COMMON_NOT_SUPPORTED]
  · rw [uCellSecTlsSniGet, h]
    simp [U_ERROR_COMMON_NOT_SUPPORTED]

/-- Witness for claim C3 at a concrete capability-free variant. -/
theorem claim_C3_witness :
    (uCellSecTlsSniSet mNoFeatures ['a'] (freshState mNoFeatures)).1 < 0 ∧
    (uCellSecTlsSniGet mNoFeatures 12 (freshState mNoFeatures)).1.1 < 0 :=
  claim_C3 mNoFeatures ['a'] 12 (freshState mNoFeatures) (by decide)

/-- Claim C7: a freshly added security context has empty root-CA,
client-certificate and client-private-key names, an empty cipher list
(list-first returns -1), the module default TLS version (0, or 12 for
the SARA-R5-like variant) and the module default certificate-check
level (NONE, or ROOT_CA for the SARA-R5-like variant). -/
theorem claim_C7 (m : CellModule) :
    (uCellSecTlsRootCaCertificateNameGet (maxNameLengthBytes + 1) (freshState m)).1 =
      (0, []) ∧
    (uCellSecTlsClientCertificateNameGet (maxNameLengthBytes + 1) (freshState m)).1 =
      (0, []) ∧
    (uCellSecTlsClientPrivateKeyNameGet (maxNameLengthBytes + 1) (freshState m)).1 =
      (0, []) ∧
    (uCellSecTlsCipherSuiteListFirst (freshState m)).1 = -1 ∧
    (uCellSecTlsVersionGet (freshState m)).1 = (if m.isSaraR5 then 12 else 0) ∧
    (uCellSecTlsCertificateCheckGet 0 (freshState m)).1.1 =
      (if m.isSaraR5 then CertCheck.checkRootCa.toCode else CertCheck.checkNone.toCode) := by
  rcases m with ⟨i, sn, rot, sara⟩
  cases i <;> cases sn <;> cases rot <;> cases sara <;> decide

/-- Claim C8: after removing a context and adding a new one, the new
context is exactly the module default configuration — no residual
cipher entries, names, version or certificate-check setting from the
removed context survives. -/
theorem claim_C8 (m : CellModule) (s : SecTlsState) :
    (pUCellSecSecTlsAdd m (uCellSecTlsRemove s)).ctx = defaultContext m ∧
    (uCellSecTlsRootCaCertificateNameGet (maxNameLengthBytes + 1)
      (pUCellSecSecTlsAdd m (uCellSecTlsRemove s))).1 = (0, []) ∧
    (uCellSecTlsClientCertificateNameGet (maxNameLengthBytes + 1)
      (pUCellSecSecTlsAdd m (uCellSecTlsRemove s))).1 = (0, []) ∧
    (uCellSecTlsClientPrivateKeyNameGet (maxNameLengthBytes + 1)
      (pUCellSecSecTlsAdd m (uCellSecTlsRemove s))).1 = (0, []) ∧
    (uCellSecTlsCipherSuiteListFirst (pUCellSecSecTlsAdd m (uCellSecTlsRemove s))).1 = -1 ∧
    (uCellSecTlsVersionGet (pUCellSecSecTlsAdd m (uCellSecTlsRemove s))).1 =
      (if m.isSaraR5 then 12 else 0) ∧
    (uCellSecTlsCertificateCheckGet 0 (pUCellSecSecTlsAdd m (uCellSecTlsRemove s))).1.1 =
      (if m.isSaraR5 then CertCheck.checkRootCa.toCode else CertCheck.checkNone.toCode) := by
  rcases m with ⟨i, sn, rot, sara⟩
  cases sara <;> exact ⟨rfl, rfl, rfl, rfl, rfl, rfl, rfl⟩

/-- Claim C2: exactly two argument shapes make the PSK setter succeed —
both byte buffers non-empty, or root-of-trust generation with both
buffers empty on a capable variant; every other combination returns
the invalid-argument error and leaves both the transport and the
context untouched. -/
theorem claim_C2 (m : CellModule) (psk pskId : List Nat) (generate : Bool)
    (s : SecTlsState) :
    ((uCellSecTlsClientPskSet m psk pskId generate s).1 = 0 ↔
      ((psk ≠ [] ∧ pskId ≠ []) ∨
       (generate = true ∧ psk = [] ∧ pskId = [] ∧ m.hasRootOfTrust = true))) ∧
    ((uCellSecTlsClientPskSet m psk pskId generate s).1 ≠ 0 →
      (uCellSecTlsClientPskSet m psk pskId generate s).1 =
        U_ERROR_COMMON_INVALID_PARAMETER ∧
      (uCellSecTlsClientPskSet m psk pskId generate s).2.transportCount =
        s.transportCount ∧
      (uCellSecTlsClientPskSet m psk pskId generate s).2.ctx = s.ctx) := by
  by_cases hc : (psk ≠ [] ∧ pskId ≠ []) ∨
      (generate = true ∧ psk = [] ∧ pskId = [] ∧ m.hasRootOfTrust = true)
  · rw [uCellSecTlsClientPskSet, if_pos hc]
    exact ⟨⟨fun _ => hc, fun _ => rfl⟩, fun h => absurd rfl h⟩
  · rw [uCellSecTlsClientPskSet, if_neg hc]
    refine ⟨⟨fun h => absurd h (by simp [opFail, latchError, U_ERROR_COMMON_INVALID_PARAMETER]),
      fun h => absurd h hc⟩, fun _ => ⟨rfl, rfl, rfl⟩⟩

/-- Witness for claim C2: a PSK without an identity is rejected with
the invalid-argument error and does not touch the transport. -/
theorem claim_C2_witness :
    (uCellSecTlsClientPskSet mAllFeatures [1] [] false (freshState mAllFeatures)).1 =
      U_ERROR_COMMON_INVALID_PARAMETER ∧
    (uCellSecTlsClientPskSet mAllFeatures [1] [] false (freshState mAllFeatures)).2.transportCount =
      (freshState mAllFeatures).transportCount :=
  ⟨((claim_C2 mAllFeatures [1] [] false (freshState mAllFeatures)).2 (by decide)).1,
   ((claim_C2 mAllFeatures [1] [] false (freshState mAllFeatures)).2 (by decide)).2.1⟩

/-- Claim C10: a PSK-setter call that fails validation leaves the
context untouched, and an immediately following call with both the key
and the identity validly provided succeeds. -/
theorem claim_C10 (m : CellModule) (psk pskId p i : List Nat) (generate : Bool)
    (s : SecTlsState)
    (hfail : (uCellSecTlsClientPskSet m psk pskId generate s).1 < 0)
    (hp : p ≠ []) (hi : i ≠ []) :
    (uCellSecTlsClientPskSet m psk pskId generate s).2.ctx = s.ctx ∧
    (uCellSecTlsClientPskSet m p i false
      (uCellSecTlsClientPskSet m psk pskId generate s).2).1 = 0 := by
  by_cases hc : (psk ≠ [] ∧ pskId ≠ []) ∨
      (generate = true ∧ psk = [] ∧ pskId = [] ∧ m.hasRootOfTrust = true)
  · rw [uCellSecTlsClientPskSet, if_pos hc] at hfail
    simp at hfail
  · rw [uCellSecTlsClientPskSet, if_neg hc]
    refine ⟨rfl, ?_⟩
    rw [uCellSecTlsClientPskSet, if_pos (Or.inl ⟨hp, hi⟩)]

/-- The first component of a bounded string get is a byte count and
hence never negative. -/
theorem stringGet_fst_nonneg (stored : List Char) (bufferSize : Nat) :
    0 ≤ (stringGet stored bufferSize).1 :=
  Int.natCast_nonneg _

/-- Certificate-check level codes are never negative. -/
theorem toCode_nonneg (c : CertCheck) : 0 ≤ c.toCode := by
  cases c <;> decide

/-- Every operation that fails does so by latching exactly its negative
result code into Last-Error; the cipher-list iteration operations are
excluded because their -1 return is the empty/exhausted sentinel, not a
failure. -/
theorem runOp_neg_latches (op : SecTlsOp) (m : CellModule) (s : SecTlsState)
    (hfail : (runOp op m s).1 < 0)
    (hsent : ¬(op = SecTlsOp.opListFirst ∨ op = SecTlsOp.opListNext)) :
    (runOp op m s).2.lastError = (runOp op m s).1 := by
  cases op with
  | opRootCaSet name =>
      revert hfail
      simp only [runOp, uCellSecTlsRootCaCertificateNameSet]
      split
      · intro _; rfl
      · intro h; exact absurd h (lt_irrefl (0 : Int))
  | opRootCaGet b =>
      exact absurd hfail (not_lt.mpr (stringGet_fst_nonneg _ _))
  | opClientCertSet name =>
      revert hfail
      simp only [runOp, uCellSecTlsClientCertificateNameSet]
      split
      · intro _; rfl
      · intro h; exact absurd h (lt_irrefl (0 : Int))
  | opClientCertGet b =>
      exact absurd hfail (not_lt.mpr (stringGet_fst_nonneg _ _))
  | opClientKeySet name pw =>
      revert hfail
      simp only [runOp, uCellSecTlsClientPrivateKeyNameSet]
      split
      · intro _; rfl
      · intro h; exact absurd h (lt_irrefl (0 : Int))
  | opClientKeyGet b =>
      exact absurd hfail (not_lt.mpr (stringGet_fst_nonneg _ _))
  | opPskSet psk pskId g =>
      revert hfail
      simp only [runOp, uCellSecTlsClientPskSet]
      split
      · intro h; exact absurd h (lt_irrefl (0 : Int))
      · intro _; rfl
  | opCipherAdd id =>
      revert hfail
      simp only [runOp, uCellSecTlsCipherSuiteAdd]
      split
      · split
        · intro h; exact absurd h (lt_irrefl (0 : Int))
        · intro h; exact absurd h (lt_irrefl (0 : Int))
      · split
        · intro h; exact absurd h (lt_irrefl (0 : Int))
        · intro _; rfl
  | opCipherRemove id =>
      exact absurd hfail (lt_irrefl (0 : Int))
  | opListFirst =>
      exact absurd (Or.inl rfl) hsent
  | opListNext =>
      exact absurd (Or.inr rfl) hsent
  | opVersionSet v =>
      exact absurd hfail (lt_irrefl (0 : Int))
  | opVersionGet =>
      exact absurd hfail (not_lt.mpr (Int.natCast_nonneg _))
  | opCertCheckSet level param =>
      revert hfail
      cases level <;> cases param <;>
        simp only [runOp, uCellSecTlsCertificateCheckSet] <;>
        first
          | (intro h; first | rfl | exact absurd h (lt_irrefl (0 : Int)))
          | (split <;> intro h <;> first | rfl | exact absurd h (lt_irrefl (0 : Int)))
  | opCertCheckGet b =>
      exact absurd hfail (not_lt.mpr (toCode_nonneg _))
  | opSniSet name =>
      revert hfail
      simp only [runOp, uCellSecTlsSniSet]
      split
      · split
        · intro _; rfl
        · intro h; exact absurd h (lt_irrefl (0 : Int))
      · intro _; rfl
  | opSniGet b =>
      revert hfail
      simp only [runOp, uCellSecTlsSniGet]
      split
      · intro h; exact absurd h (not_lt.mpr (stringGet_fst_nonneg _ _))
      · intro _; rfl

/-- Claim C1: for every failing operation on a security context,
Last-Error is latched to a negative value such that the immediately
following Last-Error reset returns exactly that negative value and, in
the same step, clears the slot, so the next reset returns 0 — the
read-and-clear is one operation. The quantification ranges over every
operation that can fail: the two cipher-list iteration calls are
excluded because they cannot fail — their -1 return is the documented
empty/exhausted-list sentinel of the iteration contract, a normal
return and not a failure, and it is not latched. -/
theorem claim_C1 (op : SecTlsOp) (m : CellModule) (s : SecTlsState)
    (hfail : (runOp op m s).1 < 0)
    (hsent : ¬(op = SecTlsOp.opListFirst ∨ op = SecTlsOp.opListNext)) :
    (uCellSecTlsResetLastError (runOp op m s).2).1 = (runOp op m s).1 ∧
    (uCellSecTlsResetLastError (runOp op m s).2).1 < 0 ∧
    (uCellSecTlsResetLastError
      (uCellSecTlsResetLastError (runOp op m s).2).2).1 = 0 := by
  have h := runOp_neg_latches op m s hfail hsent
  refine ⟨h, ?_, rfl⟩
  show (runOp op m s).2.lastError < 0
  rw [h]
  exact hfail

/-- Witness for claim C1: a rejected SNI set on an incapable variant
latches, the first reset returns the negative code, the second returns
0. -/
theorem claim_C1_witness :
    (runOp (SecTlsOp.opSniSet ['a']) mNoFeatures (freshState mNoFeatures)).1 < 0 ∧
    (uCellSecTlsResetLastError
      (runOp (SecTlsOp.opSniSet ['a']) mNoFeatures (freshState mNoFeatures)).2).1 < 0 ∧
    (uCellSecTlsResetLastError
      (uCellSecTlsResetLastError
        (runOp (SecTlsOp.opSniSet ['a']) mNoFeatures (freshState mNoFeatures)).2).2).1 = 0 :=
  ⟨by decide,
   (claim_C1 (SecTlsOp.opSniSet ['a']) mNoFeatures (freshState mNoFeatures)
     (by decide) (by decide)).2.1,
   (claim_C1 (SecTlsOp.opSniSet ['a']) mNoFeatures (freshState mNoFeatures)
     (by decide) (by decide)).2.2⟩

/-- Adding an absent cipher on an IANA-numbering variant appends it,
preserving insertion order. -/
theorem cipherAdd_iana_suites (m : CellModule) (hm : m.hasIanaNumbering = true)
    (id : Nat) (s : SecTlsState) (hid : id ∉ s.ctx.cipherSuites) :
    (uCellSecTlsCipherSuiteAdd m id s).2.ctx.cipherSuites =
      s.ctx.cipherSuites ++ [id] := by
  simp [uCellSecTlsCipherSuiteAdd, hm, hid, touchTransport]

/-- Folding distinct, not-yet-present cipher identifiers through add on
an IANA-numbering variant appends them all in order. -/
theorem cipherAddAll_suites (m : CellModule) (hm : m.hasIanaNumbering = true)
    (ids : List Nat) :
    ∀ (s : SecTlsState), ids.Nodup → (∀ j ∈ ids, j ∉ s.ctx.cipherSuites) →
      (cipherAddAll m ids s).ctx.cipherSuites = s.ctx.cipherSuites ++ ids := by
  induction ids with
  | nil =>
      intro s _ _
      simp [cipherAddAll]
  | cons id rest ih =>
      intro s hnd hdis
      have hid : id ∉ s.ctx.cipherSuites := hdis id (List.mem_cons_self id rest)
      have h1 := cipherAdd_iana_suites m hm id s hid
      have hrest : ∀ j ∈ rest, j ∉ (uCellSecTlsCipherSuiteAdd m id s).2.ctx.cipherSuites := by
        intro j hj
        rw [h1]
        simp only [List.mem_append, List.mem_singleton]
        rintro (hjs | hjid)
        · exact hdis j (List.mem_cons_of_mem id hj) hjs
        · exact (List.nodup_cons.mp hnd).1 (hjid ▸ hj)
      have h2 := ih (uCellSecTlsCipherSuiteAdd m id s).2 (List.nodup_cons.mp hnd).2 hrest
      show (cipherAddAll m rest (uCellSecTlsCipherSuiteAdd m id s).2).ctx.cipherSuites = _
      rw [h2, h1, List.append_assoc]
      rfl

/-- On a variant without IANA numbering, an add onto an empty cipher
list succeeds and stores the single identifier. -/
theorem cipherAdd_noniana_ok (m : CellModule) (hm : m.hasIanaNumbering = false)
    (id : Nat) (s : SecTlsState) (hemp : s.ctx.cipherSuites = []) :
    uCellSecTlsCipherSuiteAdd m id s =
      (0, touchTransport { s with ctx := { s.ctx with cipherSuites := [id] } }) := by
  rw [uCellSecTlsCipherSuiteAdd, hm, if_neg (by decide : ¬(false = true)), if_pos hemp]

/-- On a variant without IANA numbering, an add onto a non-empty cipher
list is the unsupported-feature failure. -/
theorem cipherAdd_noniana_fail (m : CellModule) (hm : m.hasIanaNumbering = false)
    (id : Nat) (s : SecTlsState) (hne : s.ctx.cipherSuites ≠ []) :
    uCellSecTlsCipherSuiteAdd m id s = opFail U_ERROR_COMMON_NOT_SUPPORTED s := by
  rw [uCellSecTlsCipherSuiteAdd, hm, if_neg (by decide : ¬(false = true)), if_neg hne]

/-- Removing a cipher erases exactly that identifier from the list. -/
theorem cipherRemove_suites (i : Nat) (s : SecTlsState) :
    (uCellSecTlsCipherSuiteRemove i s).2.ctx.cipherSuites =
      s.ctx.cipherSuites.erase i := rfl

/-- The iteration tail collects, via list-next, exactly the cipher
identifiers from the cursor position onwards, provided enough fuel. -/
theorem collectNext_eq (fuel : Nat) :
    ∀ (s : SecTlsState), s.ctx.cipherSuites.length ≤ s.ctx.cipherCursor + fuel →
      collectNext s fuel =
        (s.ctx.cipherSuites.drop s.ctx.cipherCursor).map (Nat.cast : Nat → Int) := by
  induction fuel with
  | zero =>
      intro s h
      rw [collectNext, List.drop_eq_nil_of_le (by omega), List.map_nil]
  | succ fuel ih =>
      intro s h
      rw [collectNext]
      rcases hx : s.ctx.cipherSuites[s.ctx.cipherCursor]? with _ | id
      · have hlen : s.ctx.cipherSuites.length ≤ s.ctx.cipherCursor :=
          List.getElem?_eq_none_iff.mp hx
        simp only [uCellSecTlsCipherSuiteListNext, hx]
        rw [if_pos (by decide : (-1 : Int) < 0),
          List.drop_eq_nil_of_le (by omega), List.map_nil]
      · obtain ⟨hk, hval⟩ := List.getElem?_eq_some.mp hx
        simp only [uCellSecTlsCipherSuiteListNext, hx]
        rw [if_neg (by omega : ¬((id : Nat) : Int) < 0)]
        rw [ih { s with ctx := { s.ctx with cipherCursor := s.ctx.cipherCursor + 1 } }
          (by show s.ctx.cipherSuites.length ≤ s.ctx.cipherCursor + 1 + fuel; omega)]
        show (id : Int) ::
            (s.ctx.cipherSuites.drop (s.ctx.cipherCursor + 1)).map (Nat.cast : Nat → Int) =
          (s.ctx.cipherSuites.drop s.ctx.cipherCursor).map (Nat.cast : Nat → Int)
        rw [List.drop_eq_getElem_cons hk, List.map_cons, hval]

/-- The full list-first/list-next iteration protocol collects exactly
the cipher list, in insertion order. -/
theorem cipherListCollect_eq (s : SecTlsState) :
    cipherListCollect s = s.ctx.cipherSuites.map (Nat.cast : Nat → Int) := by
  rcases hl : s.ctx.cipherSuites with _ | ⟨id, rest⟩
  · have hfirst : uCellSecTlsCipherSuiteListFirst s =
        (-1, { s with ctx := { s.ctx with cipherCursor := 0 } }) := by
      simp [uCellSecTlsCipherSuiteListFirst, hl]
    simp [cipherListCollect, hfirst, hl]
  · have hfirst : uCellSecTlsCipherSuiteListFirst s =
        ((id : Int), { s with ctx := { s.ctx with cipherCursor := 1 } }) := by
      simp [uCellSecTlsCipherSuiteListFirst, hl]
    have hnext : collectNext { s with ctx := { s.ctx with cipherCursor := 1 } }
        s.ctx.cipherSuites.length = rest.map (Nat.cast : Nat → Int) := by
      rw [collectNext_eq s.ctx.cipherSuites.length
        { s with ctx := { s.ctx with cipherCursor := 1 } }
        (by show s.ctx.cipherSuites.length ≤ 1 + s.ctx.cipherSuites.length; omega)]
      show (s.ctx.cipherSuites.drop 1).map (Nat.cast : Nat → Int) = _
      rw [hl]
      rfl
    simp only [cipherListCollect, hfirst]
    rw [if_neg (by omega : ¬((id : Nat) : Int) < 0), hnext]
    rfl

/-- Claim C4: on an IANA-numbering variant, adding N distinct cipher
identifiers to a fresh context and iterating yields exactly those
identifiers in insertion order, and removing one leaves N-1 entries
none of which is the removed identifier; on a variant without IANA
numbering at most one cipher may be present at a time — a first add to
an empty list succeeds and any add onto a non-empty list fails with a
negative error. -/
theorem claim_C4 (m : CellModule) (ids : List Nat) (i id1 id2 : Nat)
    (s : SecTlsState) :
    (m.hasIanaNumbering = true → ids.Nodup →
      cipherListCollect (cipherAddAll m ids (freshState m)) =
        ids.map (Nat.cast : Nat → Int) ∧
      (i ∈ ids →
        cipherListCollect
            ((uCellSecTlsCipherSuiteRemove i (cipherAddAll m ids (freshState m))).2) =
          (ids.erase i).map (Nat.cast : Nat → Int) ∧
        ((uCellSecTlsCipherSuiteRemove i
            (cipherAddAll m ids (freshState m))).2.ctx.cipherSuites.length =
          ids.length - 1) ∧
        i ∉ (uCellSecTlsCipherSuiteRemove i
            (cipherAddAll m ids (freshState m))).2.ctx.cipherSuites)) ∧
    (m.hasIanaNumbering = false → s.ctx.cipherSuites = [] →
      (uCellSecTlsCipherSuiteAdd m id1 s).1 = 0 ∧
      (uCellSecTlsCipherSuiteAdd m id2 (uCellSecTlsCipherSuiteAdd m id1 s).2).1 < 0) ∧
    (m.hasIanaNumbering = false → s.ctx.cipherSuites ≠ [] →
      (uCellSecTlsCipherSuiteAdd m id1 s).1 < 0) := by
  refine ⟨fun hm hnd => ?_, fun hm hemp => ?_, fun hm hne => ?_⟩
  · have hsuites : (cipherAddAll m ids (freshState m)).ctx.cipherSuites = ids := by
      rw [cipherAddAll_suites m hm ids (freshState m) hnd
        (fun j _ => by show j ∉ ([] : List Nat); simp)]
      rfl
    refine ⟨?_, fun hi => ⟨?_, ?_, ?_⟩⟩
    · rw [cipherListCollect_eq, hsuites]
    · rw [cipherListCollect_eq]
      show ((cipherAddAll m ids (freshState m)).ctx.cipherSuites.erase i).map (Nat.cast : Nat → Int) = _
      rw [hsuites]
    · show ((cipherAddAll m ids (freshState m)).ctx.cipherSuites.erase i).length =
        ids.length - 1
      rw [hsuites]
      exact List.length_erase_of_mem hi
    · show i ∉ (cipherAddAll m ids (freshState m)).ctx.cipherSuites.erase i
      rw [hsuites]
      intro hmem
      exact (hnd.mem_erase_iff.mp hmem).1 rfl
  · refine ⟨?_, ?_⟩
    · rw [cipherAdd_noniana_ok m hm id1 s hemp]
    · have hne1 : (uCellSecTlsCipherSuiteAdd m id1 s).2.ctx.cipherSuites ≠ [] := by
        rw [cipherAdd_noniana_ok m hm id1 s hemp]
        exact List.cons_ne_nil id1 []
      rw [cipherAdd_noniana_fail m hm id2 (uCellSecTlsCipherSuiteAdd m id1 s).2 hne1]
      exact (by decide : U_ERROR_COMMON_NOT_SUPPORTED < (0 : Int))
  · rw [cipherAdd_noniana_fail m hm id1 s hne]
    exact (by decide : U_ERROR_COMMON_NOT_SUPPORTED < (0 : Int))

/-- Witness for claim C4: the two test ciphers on an IANA-capable
variant iterate in insertion order, and the second add fails on a
single-cipher variant. -/
theorem claim_C4_witness :
    cipherListCollect (cipherAddAll mAllFeatures [10, 49155] (freshState mAllFeatures)) =
      [10, 49155] ∧
    (uCellSecTlsCipherSuiteAdd mNoFeatures 49155
      (uCellSecTlsCipherSuiteAdd mNoFeatures 10 (freshState mNoFeatures)).2).1 < 0 := by
  constructor
  · rw [((claim_C4 mAllFeatures [10, 49155] 10 0 0 (freshState mAllFeatures)).1
      rfl (by decide)).1]
    decide
  · exact ((claim_C4 mNoFeatures [] 0 10 49155 (freshState mNoFeatures)).2.1
      rfl rfl).2

/-- Claim C5: every bounded string field round-trips — after a set of a
value within the maximum length, get returns exactly that value, and a
second set of a different valid value fully replaces it, so a
subsequent get returns only the new value (the capability-gated SNI
field on a capable variant included). -/
theorem claim_C5 (m : CellModule) (x y : List Char) (pw pw2 : Option (List Char))
    (bufferSize : Nat) (s : SecTlsState)
    (hx : x.length ≤ maxNameLengthBytes) (hy : y.length ≤ maxNameLengthBytes)
    (_hxy : x ≠ y) (hbx : x.length < bufferSize) (hby : y.length < bufferSize) :
    ((uCellSecTlsRootCaCertificateNameGet bufferSize
        (uCellSecTlsRootCaCertificateNameSet x s).2).1 = ((x.length : Int), x) ∧
      (uCellSecTlsRootCaCertificateNameGet bufferSize
        (uCellSecTlsRootCaCertificateNameSet y
          (uCellSecTlsRootCaCertificateNameSet x s).2).2).1 = ((y.length : Int), y)) ∧
    ((uCellSecTlsClientCertificateNameGet bufferSize
        (uCellSecTlsClientCertificateNameSet x s).2).1 = ((x.length : Int), x) ∧
      (uCellSecTlsClientCertificateNameGet bufferSize
        (uCellSecTlsClientCertificateNameSet y
          (uCellSecTlsClientCertificateNameSet x s).2).2).1 = ((y.length : Int), y)) ∧
    ((uCellSecTlsClientPrivateKeyNameGet bufferSize
        (uCellSecTlsClientPrivateKeyNameSet x pw s).2).1 = ((x.length : Int), x) ∧
      (uCellSecTlsClientPrivateKeyNameGet bufferSize
        (uCellSecTlsClientPrivateKeyNameSet y pw2
          (uCellSecTlsClientPrivateKeyNameSet x pw s).2).2).1 = ((y.length : Int), y)) ∧
    (m.hasSni = true →
      (uCellSecTlsSniGet m bufferSize (uCellSecTlsSniSet m x s).2).1 =
        ((x.length : Int), x) ∧
      (uCellSecTlsSniGet m bufferSize
        (uCellSecTlsSniSet m y (uCellSecTlsSniSet m x s).2).2).1 =
        ((y.length : Int), y)) := by
  have hx' : ¬ x.length > maxNameLengthBytes := by omega
  have hy' : ¬ y.length > maxNameLengthBytes := by omega
  refine ⟨⟨?_, ?_⟩, ⟨?_, ?_⟩, ⟨?_, ?_⟩, fun hs => ⟨?_, ?_⟩⟩
  · simp only [uCellSecTlsRootCaCertificateNameSet, if_neg hx',
      uCellSecTlsRootCaCertificateNameGet]
    exact stringGet_full x bufferSize hbx
  · simp only [uCellSecTlsRootCaCertificateNameSet, if_neg hx', if_neg hy',
      uCellSecTlsRootCaCertificateNameGet]
    exact stringGet_full y bufferSize hby
  · simp only [uCellSecTlsClientCertificateNameSet, if_neg hx',
      uCellSecTlsClientCertificateNameGet]
    exact stringGet_full x bufferSize hbx
  · simp only [uCellSecTlsClientCertificateNameSet, if_neg hx', if_neg hy',
      uCellSecTlsClientCertificateNameGet]
    exact stringGet_full y bufferSize hby
  · simp only [uCellSecTlsClientPrivateKeyNameSet, if_neg hx',
      uCellSecTlsClientPrivateKeyNameGet]
    exact stringGet_full x bufferSize hbx
  · simp only [uCellSecTlsClientPrivateKeyNameSet, if_neg hx', if_neg hy',
      uCellSecTlsClientPrivateKeyNameGet]
    exact stringGet_full y bufferSize hby
  · simp only [uCellSecTlsSniSet, uCellSecTlsSniGet, hs, if_true, if_neg hx']
    exact stringGet_full x bufferSize hbx
  · simp only [uCellSecTlsSniSet, uCellSecTlsSniGet, hs, if_true, if_neg hx', if_neg hy']
    exact stringGet_full y bufferSize hby

/-- Witness for claim C5: the root/CA certificate name round trip of
the test scenario, overwrite included. -/
theorem claim_C5_witness :
    (uCellSecTlsRootCaCertificateNameGet 12
      (uCellSecTlsRootCaCertificateNameSet "test_name_1".toList
        (freshState mAllFeatures)).2).1 = ((11 : Int), "test_name_1".toList) ∧
    (uCellSecTlsRootCaCertificateNameGet 12
      (uCellSecTlsRootCaCertificateNameSet "test_name_x".toList
        (uCellSecTlsRootCaCertificateNameSet "test_name_1".toList
          (freshState mAllFeatures)).2).2).1 = ((11 : Int), "test_name_x".toList) :=
  (claim_C5 mAllFeatures "test_name_1".toList "test_name_x".toList none none 12
    (freshState mAllFeatures) (by decide) (by decide) (by decide) (by decide)
    (by decide)).1

/-- Claim C6 as stated is refuted: with the two-byte name stored and a
nonzero buffer size of 2, get reports 1 copied byte, not the stored
length 2 — the return value is the possibly truncated copied count, not
the stored length regardless of buffer size. -/
theorem claim_C6_counterexample :
    (uCellSecTlsRootCaCertificateNameGet 2
      (uCellSecTlsRootCaCertificateNameSet ['a', 'b']
        (freshState mAllFeatures)).2).1.1 = 1 ∧
    (uCellSecTlsRootCaCertificateNameSet ['a', 'b']
      (freshState mAllFeatures)).2.ctx.rootCaCertificateName.length = 2 ∧
    (2 : Nat) ≠ 0 := by decide

/-- Claim C6 amended: a bounded string get reports the number of bytes
copied, namely the stored length truncated to what fits in the buffer
with a terminator; this equals the stored byte length whenever the
buffer is large enough, and a get with buffer size 0 (null buffer) is a
valid no-copy probe returning 0, not an error, for the empty default
value. -/
theorem claim_C6_amended (m : CellModule) (bufferSize : Nat) (s : SecTlsState) :
    ((uCellSecTlsRootCaCertificateNameGet bufferSize s).1.1 =
      ((min (bufferSize - 1) s.ctx.rootCaCertificateName.length : Nat) : Int)) ∧
    (s.ctx.rootCaCertificateName.length < bufferSize →
      (uCellSecTlsRootCaCertificateNameGet bufferSize s).1.1 =
        (s.ctx.rootCaCertificateName.length : Int)) ∧
    ((uCellSecTlsClientCertificateNameGet bufferSize s).1.1 =
      ((min (bufferSize - 1) s.ctx.clientCertificateName.length : Nat) : Int)) ∧
    (s.ctx.clientCertificateName.length < bufferSize →
      (uCellSecTlsClientCertificateNameGet bufferSize s).1.1 =
        (s.ctx.clientCertificateName.length : Int)) ∧
    ((uCellSecTlsClientPrivateKeyNameGet bufferSize s).1.1 =
      ((min (bufferSize - 1) s.ctx.clientPrivateKeyName.length : Nat) : Int)) ∧
    (s.ctx.clientPrivateKeyName.length < bufferSize →
      (uCellSecTlsClientPrivateKeyNameGet bufferSize s).1.1 =
        (s.ctx.clientPrivateKeyName.length : Int)) ∧
    (m.hasSni = true →
      (uCellSecTlsSniGet m bufferSize s).1.1 =
        ((min (bufferSize - 1) s.ctx.sni.length : Nat) : Int)) ∧
    (m.hasSni = true → s.ctx.sni.length < bufferSize →
      (uCellSecTlsSniGet m bufferSize s).1.1 = (s.ctx.sni.length : Int)) ∧
    ((uCellSecTlsRootCaCertificateNameGet 0 (freshState m)).1.1 = 0) ∧
    (m.hasSni = true → (uCellSecTlsSniGet m 0 (freshState m)).1.1 = 0) := by
  refine ⟨?_, fun h => ?_, ?_, fun h => ?_, ?_, fun h => ?_, fun hs => ?_,
    fun hs h => ?_, rfl, fun hs => ?_⟩
  · simp [uCellSecTlsRootCaCertificateNameGet, stringGet, List.length_take]
  · simp [uCellSecTlsRootCaCertificateNameGet, stringGet, List.length_take]
    omega
  · simp [uCellSecTlsClientCertificateNameGet, stringGet, List.length_take]
  · simp [uCellSecTlsClientCertificateNameGet, stringGet, List.length_take]
    omega
  · simp [uCellSecTlsClientPrivateKeyNameGet, stringGet, List.length_take]
  · simp [uCellSecTlsClientPrivateKeyNameGet, stringGet, List.length_take]
    omega
  · simp [uCellSecTlsSniGet, hs, stringGet, List.length_take]
  · simp [uCellSecTlsSniGet, hs, stringGet, List.length_take]
    omega
  · simp [uCellSecTlsSniGet, hs, stringGet, freshState, defaultContext]

/-- Witness for claim C6 amended at a concrete stored value and
buffer, the no-copy probe and the SNI field included. -/
theorem claim_C6_amended_witness :
    (uCellSecTlsRootCaCertificateNameGet 12
      (uCellSecTlsRootCaCertificateNameSet "test_name_1".toList
        (freshState mAllFeatures)).2).1.1 = (11 : Int) ∧
    (uCellSecTlsRootCaCertificateNameGet 0 (freshState mAllFeatures)).1.1 = 0 ∧
    (uCellSecTlsSniGet mAllFeatures 0 (freshState mAllFeatures)).1.1 = 0 :=
  ⟨by
    have h := (claim_C6_amended mAllFeatures 12
      (uCellSecTlsRootCaCertificateNameSet "test_name_1".toList
        (freshState mAllFeatures)).2).2.1 (by decide)
    rw [h]; decide,
   (claim_C6_amended mAllFeatures 0 (freshState mAllFeatures)).2.2.2.2.2.2.2.2.1,
   (claim_C6_amended mAllFeatures 0 (freshState mAllFeatures)).2.2.2.2.2.2.2.2.2
     (by decide)⟩

/-- Claim C9: the certificate-check setter requires a null parameter
for level NONE, ignores it for ROOT_CA, and requires a non-null bounded
parameter for the URL-carrying levels; the getter always returns the
numeric level code regardless of buffer size and copies the associated
parameter when the level carries one. -/
theorem claim_C9 (s : SecTlsState) (p : List Char) (bufferSize : Nat) :
    ((uCellSecTlsCertificateCheckSet CertCheck.checkNone none s).1 = 0) ∧
    ((uCellSecTlsCertificateCheckSet CertCheck.checkNone (some p) s).1 < 0) ∧
    (uCellSecTlsCertificateCheckSet CertCheck.checkRootCa (some p) s =
      uCellSecTlsCertificateCheckSet CertCheck.checkRootCa none s) ∧
    ((uCellSecTlsCertificateCheckSet CertCheck.checkRootCaUrl none s).1 < 0) ∧
    ((uCellSecTlsCertificateCheckSet CertCheck.checkRootCaUrlDate none s).1 < 0) ∧
    (p.length ≤ maxNameLengthBytes →
      (uCellSecTlsCertificateCheckSet CertCheck.checkRootCaUrl (some p) s).1 = 0 ∧
      (uCellSecTlsCertificateCheckSet CertCheck.checkRootCaUrlDate (some p) s).1 = 0) ∧
    ((uCellSecTlsCertificateCheckGet bufferSize s).1.1 =
      s.ctx.certificateCheck.toCode) ∧
    (p.length ≤ maxNameLengthBytes → p.length < bufferSize →
      (uCellSecTlsCertificateCheckGet bufferSize
        (uCellSecTlsCertificateCheckSet CertCheck.checkRootCaUrl (some p) s).2).1 =
      (CertCheck.checkRootCaUrl.toCode, p)) ∧
    (p.length ≤ maxNameLengthBytes → p.length < bufferSize →
      (uCellSecTlsCertificateCheckGet bufferSize
        (uCellSecTlsCertificateCheckSet CertCheck.checkRootCaUrlDate (some p) s).2).1 =
      (CertCheck.checkRootCaUrlDate.toCode, p)) := by
  refine ⟨rfl, ?_, rfl, ?_, ?_, fun hp => ⟨?_, ?_⟩, rfl, fun hp hb => ?_, fun hp hb => ?_⟩
  · exact (by decide : U_ERROR_COMMON_INVALID_PARAMETER < (0 : Int))
  · exact (by decide : U_ERROR_COMMON_INVALID_PARAMETER < (0 : Int))
  · exact (by decide : U_ERROR_COMMON_INVALID_PARAMETER < (0 : Int))
  · show (if p.length > maxNameLengthBytes then
        opFail U_ERROR_COMMON_INVALID_PARAMETER s
      else (0, touchTransport { s with ctx := { s.ctx with
        certificateCheck := CertCheck.checkRootCaUrl,
        certificateCheckParam := p } })).1 = 0
    rw [if_neg (by omega)]
  · show (if p.length > maxNameLengthBytes then
        opFail U_ERROR_COMMON_INVALID_PARAMETER s
      else (0, touchTransport { s with ctx := { s.ctx with
        certificateCheck := CertCheck.checkRootCaUrlDate,
        certificateCheckParam := p } })).1 = 0
    rw [if_neg (by omega)]
  · show (uCellSecTlsCertificateCheckGet bufferSize
      (if p.length > maxNameLengthBytes then
        opFail U_ERROR_COMMON_INVALID_PARAMETER s
      else (0, touchTransport { s with ctx := { s.ctx with
        certificateCheck := CertCheck.checkRootCaUrl,
        certificateCheckParam := p } })).2).1 =
      (CertCheck.checkRootCaUrl.toCode, p)
    rw [if_neg (by omega)]
    show ((CertCheck.checkRootCaUrl.toCode, p.take (bufferSize - 1)), _).1 =
      (CertCheck.checkRootCaUrl.toCode, p)
    rw [List.take_of_length_le (by omega)]
  · show (uCellSecTlsCertificateCheckGet bufferSize
      (if p.length > maxNameLengthBytes then
        opFail U_ERROR_COMMON_INVALID_PARAMETER s
      else (0, touchTransport { s with ctx := { s.ctx with
        certificateCheck := CertCheck.checkRootCaUrlDate,
        certificateCheckParam := p } })).2).1 =
      (CertCheck.checkRootCaUrlDate.toCode, p)
    rw [if_neg (by omega)]
    show ((CertCheck.checkRootCaUrlDate.toCode, p.take (bufferSize - 1)), _).1 =
      (CertCheck.checkRootCaUrlDate.toCode, p)
    rw [List.take_of_length_le (by omega)]

/-- Witness for claim C9: setting ROOT_CA_URL and ROOT_CA_URL_DATE with
the test parameter and reading each back. -/
theorem claim_C9_witness :
    (uCellSecTlsCertificateCheckSet CertCheck.checkRootCaUrl
      (some "test_name_4".toList) (freshState mAllFeatures)).1 = 0 ∧
    (uCellSecTlsCertificateCheckGet 12
      (uCellSecTlsCertificateCheckSet CertCheck.checkRootCaUrl
        (some "test_name_4".toList) (freshState mAllFeatures)).2).1 =
      (CertCheck.checkRootCaUrl.toCode, "test_name_4".toList) ∧
    (uCellSecTlsCertificateCheckSet CertCheck.checkRootCaUrlDate
      (some "test_name_4".toList) (freshState mAllFeatures)).1 = 0 ∧
    (uCellSecTlsCertificateCheckGet 12
      (uCellSecTlsCertificateCheckSet CertCheck.checkRootCaUrlDate
        (some "test_name_4".toList) (freshState mAllFeatures)).2).1 =
      (CertCheck.checkRootCaUrlDate.toCode, "test_name_4".toList) :=
  ⟨((claim_C9 (freshState mAllFeatures) "test_name_4".toList 12).2.2.2.2.2.1
      (by decide)).1,
   (claim_C9 (freshState mAllFeatures) "test_name_4".toList 12).2.2.2.2.2.2.2.1
      (by decide) (by decide),
   ((claim_C9 (freshState mAllFeatures) "test_name_4".toList 12).2.2.2.2.2.1
      (by decide)).2,
   (claim_C9 (freshState mAllFeatures) "test_name_4".toList 12).2.2.2.2.2.2.2.2
      (by decide) (by decide)⟩

/-- Witness for claim C10: after a rejected key-without-identity call,
a fully specified PSK call on the same context succeeds. -/
theorem claim_C10_witness :
    (uCellSecTlsClientPskSet mAllFeatures [1] [] false (freshState mAllFeatures)).2.ctx =
      (freshState mAllFeatures).ctx ∧
    (uCellSecTlsClientPskSet mAllFeatures [1] [2] false
      (uCellSecTlsClientPskSet mAllFeatures [1] [] false (freshState mAllFeatures)).2).1 = 0 :=
  claim_C10 mAllFeatures [1] [] [1] [2] false (freshState mAllFeatures)
    (by decide) (by decide) (by decide)
